import Mathlib

/-!
Verification of the remote-control streaming server (TestRemoteControl).

This file shallowly embeds the server's core algorithms and proves/refutes
the specification claims about them:

* the Stream Engine's capture tick (`server/lib/StreamEngine.js`:
  `updateInterval`, `captureAndEmit`, `performPaneDetection`),
* the per-client detection state (`server/lib/ClientManager.js`,
  embedded in `configManager.js`),
* the pane/edge detector (`server/pane-detector.js`:
  `findVerticalEdges`, `findHorizontalEdges`, `findTerminalPane`),
* the click-coordinate translation (`input:click` handler in `index.js`),
* the worker channel pending-call bookkeeping
  (`server/lib/WindowDetectorWorker.js`).

JS numbers are modelled as `Int` where the source only ever holds integers
and as `Rat` where fractional values occur (scores, fps, DPI scales).
Asynchronous results (`await` of a pane locator or of the screenshot) are
passed to the embedded step functions as explicit parameters.
-/

/-- View modes of a client session (`state.viewMode` in the server). -/
inductive ViewMode
  | chat
  | terminal
  | apps
  | config
  | idle
deriving DecidableEq, Repr

/-- `['chat', 'terminal', 'apps'].includes(viewMode)` — the streaming view
modes used by both the tick guard and the detection-refresh loop. -/
def ViewMode.isStreaming : ViewMode → Bool
  | .chat => true
  | .terminal => true
  | .apps => true
  | _ => false

/-!
## Clipping of the base capture region

`StreamEngine.captureAndEmit`, lines 180–183:

```js
if (baseX < 0) baseX = 0;
if (baseY < 0) baseY = 0;
if (baseX + baseW > screenWidth) baseW = screenWidth - baseX;
if (baseY + baseH > screenHeight) baseH = screenHeight - baseY;
```

The reassignments are sequential: the width test uses the already-clamped
`baseX`.  All quantities are integers (`Math.round` has been applied).
-/

/-- Result of clipping the base region to the snapshot. -/
structure ClippedRect where
  x : Int
  y : Int
  w : Int
  h : Int
deriving DecidableEq, Repr

/-- The clipping step of `captureAndEmit` (lines 180–183). -/
def clipRect (bx byv bw bh sw sh : Int) : ClippedRect :=
  let bx := if bx < 0 then 0 else bx
  let byv := if byv < 0 then 0 else byv
  let bw := if bx + bw > sw then sw - bx else bw
  let bh := if byv + bh > sh then sh - byv else bh
  ⟨bx, byv, bw, bh⟩

/-!
## Click coordinate translation

`index.js` `input:click` handler (embedded in `configManager.js`,
lines 597–629):

```js
const absoluteX = state.lastCaptureArea.x + (pos.x / downscale) + cropLeft;
const absoluteY = state.lastCaptureArea.y + (pos.y / downscale) + cropTop;
const logicalX = Math.round(absoluteX / scale.x);
const logicalY = Math.round(absoluteY / scale.y);
robot.moveMouse(logicalX, logicalY);
```
-/

/-- JavaScript `Math.round`: round half toward positive infinity. -/
def jsRound (q : Rat) : Int := ⌊q + 1/2⌋

/-- The coordinate computation of the `input:click` handler: given the
stored `lastCaptureArea` origin (integers), the effective crop offsets,
the low-resource downscale factor, the DPI scale and the client-relative
click position, produce the logical coordinates passed to
`robot.moveMouse`. -/
def clickLogical (areaX areaY : Int) (cropLeft cropTop : Int)
    (downscale sx sy : Rat) (cx cy : Rat) : Int × Int :=
  let absoluteX : Rat := areaX + cx / downscale + cropLeft
  let absoluteY : Rat := areaY + cy / downscale + cropTop
  (jsRound (absoluteX / sx), jsRound (absoluteY / sy))

/-!
## Capture timer interval

`StreamEngine.updateInterval` (lines 36–61):

```js
let baseFps = lowResourceMode ? configManager.getEffectiveFps() : globalConfig.fps;
const clientFps = clients.map(c => {
    const conf = clientManager.getEffectiveConfig(c.socketId);
    return conf ? conf.fps : baseFps;
});
const targetFps = lowResourceMode ? baseFps : Math.max(baseFps, ...clientFps);
const intervalMs = 1000 / targetFps;
```

`clients` is `clientManager.getAllClients()` — every connected client,
with no filtering on `isActive` or `viewMode`.  `getEffectiveConfig`
always returns an object for a tracked client, so `conf.fps` is the
client's effective fps (client override if set, else the global default).
`getEffectiveFps` (the low-resource fps) comes from `server/config.js`
and is passed here as a parameter.
-/

/-- What `updateInterval` reads about one connected client. -/
structure EngineClient where
  isActive : Bool
  viewMode : ViewMode
  /-- `getEffectiveConfig(socketId).fps`. -/
  fps : Rat
deriving DecidableEq, Repr

/-- Target fps computed by `updateInterval`. -/
def updateTargetFps (lowResourceMode : Bool) (lowResFps globalFps : Rat)
    (clients : List EngineClient) : Rat :=
  let baseFps := if lowResourceMode then lowResFps else globalFps
  let clientFps := clients.map (·.fps)
  if lowResourceMode then baseFps else clientFps.foldl max baseFps

/-- `intervalMs = 1000 / targetFps` from `updateInterval`. -/
def updateIntervalMs (lowResourceMode : Bool) (lowResFps globalFps : Rat)
    (clients : List EngineClient) : Rat :=
  1000 / updateTargetFps lowResourceMode lowResFps globalFps clients

/-- The target fps as the specification describes it: the maximum of the
effective fps over all *active* clients in a *streaming* view mode
(together with the global default), or the low-resource fps alone. -/
def specTargetFps (lowResourceMode : Bool) (lowResFps globalFps : Rat)
    (clients : List EngineClient) : Rat :=
  if lowResourceMode then lowResFps
  else
    ((clients.filter (fun c => c.isActive && c.viewMode.isStreaming)).map
      (·.fps)).foldl max globalFps

/-- The tick interval as the specification describes it. -/
def specIntervalMs (lowResourceMode : Bool) (lowResFps globalFps : Rat)
    (clients : List EngineClient) : Rat :=
  1000 / specTargetFps lowResourceMode lowResFps globalFps clients

/-!
## Per-client detection state and the detection step

`ClientManager.createDefaultClientState` (detection fields) and
`StreamEngine.performPaneDetection` (lines 250–354).  The pane-locator
results (`await findChatPaneStructural(...)` / `await findTerminalPane(...)`)
and the current wall-clock time (`Date.now()`) are passed to the step as
explicit parameters; the step additionally reports whether the pane
locator was invoked.
-/

/-- A pane rectangle as returned by the pane locator. -/
structure PaneBounds where
  x : Int
  y : Int
  width : Int
  height : Int
deriving DecidableEq, Repr

/-- The fields of a client state read or written by `performPaneDetection`,
`setMode` and the calibration reset handlers. -/
structure DetState where
  viewMode : ViewMode
  calibrationMode : Bool
  calibrationStartTime : Option Int
  frameCount : Int
  lastPaneX : Int
  stablePaneX : Int
  lastPaneY : Int
  stablePaneY : Int
  stablePaneW : Int
  stablePaneH : Int
  stabilityCount : Int
  fixedChatZone : Option Int
  fixedTerminalZone : Option PaneBounds
deriving DecidableEq, Repr

/-- The detection fields of `createDefaultClientState` (viewMode `'chat'`,
`calibrationMode: true`, counters zeroed, positions `-1`, zones `null`). -/
def defaultDetState : DetState :=
  { viewMode := .chat
    calibrationMode := true
    calibrationStartTime := none
    frameCount := 0
    lastPaneX := -1
    stablePaneX := -1
    lastPaneY := -1
    stablePaneY := -1
    stablePaneW := -1
    stablePaneH := -1
    stabilityCount := 0
    fixedChatZone := none
    fixedTerminalZone := none }

/-- `CALIBRATION_DURATION = 5000` (ms). -/
def CALIBRATION_DURATION : Int := 5000

/-- The bookkeeping at the top of `performPaneDetection` (lines 252–264):
record the calibration start time on the first calibrating frame,
increment the frame counter, finish calibration after the 5-second
window.  JS faithfulness note: the calibration-timeout test
`if (state.calibrationMode && state.calibrationStartTime)` treats a
stored timestamp of `0` as falsy. -/
def detectPreamble (now : Int) (s : DetState) : DetState :=
  -- if (state.calibrationMode && state.calibrationStartTime === null) ...
  let s := if s.calibrationMode && s.calibrationStartTime = none then
      { s with calibrationStartTime := some now } else s
  -- state.frameCount++
  let s := { s with frameCount := s.frameCount + 1 }
  -- calibration timeout (a zero timestamp is falsy in JS)
  match s.calibrationStartTime with
  | some t =>
      if s.calibrationMode && t ≠ 0 && now - t ≥ CALIBRATION_DURATION then
        { s with calibrationMode := false } else s
  | none => s

/-- One run of `performPaneDetection`.  `now` is `Date.now()`;
`chatResult` / `termResult` are what `findChatPaneStructural` (only its
`x` is used) / `findTerminalPane` would return if invoked (`none` = the
locator returned `null`).  The returned `Bool` records whether the pane
locator was actually invoked on this run.  JS faithfulness note:
`state.lastPaneX` is updated only in the mismatch branch, so a commit
stores the anchor of the agreeing run. -/
def performPaneDetection (isFixedMode : Bool) (now : Int)
    (chatResult : Option Int) (termResult : Option PaneBounds)
    (s : DetState) : DetState × Bool :=
  -- lines 252–264: calibration bookkeeping and frame counter
  let s := detectPreamble now s
  -- Fast Exit if Fixed Mode AND already stable
  if isFixedMode && !s.calibrationMode &&
      ((s.viewMode = .chat && s.stablePaneX > 0) ||
       (s.viewMode = .terminal && s.stablePaneY > 0)) then
    (s, false)
  else
  let shouldRunDetection := s.calibrationMode || s.frameCount % 10 = 0 ||
    (s.viewMode = .chat && s.stablePaneX = -1) ||
    (s.viewMode = .terminal && s.stablePaneY = -1)
  if !shouldRunDetection then (s, false)
  else if s.viewMode = .chat then
    match chatResult with
    | none => (s, true)
    | some detectedX =>
        let s := if |detectedX - s.lastPaneX| < 5 then
            { s with stabilityCount := s.stabilityCount + 1 }
          else
            { s with stabilityCount := 0, lastPaneX := detectedX }
        let s := if s.stabilityCount ≥ 3 then
            let s := { s with stablePaneX := s.lastPaneX }
            if isFixedMode then
              { s with fixedChatZone := some s.stablePaneX,
                       calibrationMode := false }
            else s
          else s
        (s, true)
  else if s.viewMode = .terminal then
    match termResult with
    | none => (s, true)
    | some pb =>
        let s := if |pb.y - s.lastPaneY| < 5 && |pb.x - s.lastPaneX| < 5 then
            { s with stabilityCount := s.stabilityCount + 1 }
          else
            { s with stabilityCount := 0, lastPaneY := pb.y, lastPaneX := pb.x }
        let s := if s.stabilityCount ≥ 3 then
            let s := { s with stablePaneY := s.lastPaneY,
                              stablePaneX := s.lastPaneX,
                              stablePaneW := pb.width,
                              stablePaneH := pb.height }
            let zone := PaneBounds.mk s.stablePaneX s.stablePaneY
                s.stablePaneW s.stablePaneH
            if isFixedMode then
              { s with fixedTerminalZone := some zone,
                       calibrationMode := false }
            else s
          else s
        (s, true)
  else (s, false)

/-- The per-run inputs of a detection step. -/
structure DetInput where
  now : Int
  chatResult : Option Int
  termResult : Option PaneBounds
deriving Repr

/-- Iterate `performPaneDetection` over a sequence of capture ticks,
returning the final state and the number of runs that invoked the pane
locator. -/
def runDetection (isFixedMode : Bool) : List DetInput → DetState → DetState × Nat
  | [], s => (s, 0)
  | i :: is, s =>
      let (s1, called) := performPaneDetection isFixedMode i.now i.chatResult i.termResult s
      let (s2, n) := runDetection isFixedMode is s1
      (s2, (if called then 1 else 0) + n)

/-- The `calibration:reset` handler (`configManager.js` lines 883–896):
`setMode(socketId, state.viewMode)` leaves the detection fields unchanged
(its reset branch requires a *different* target mode), then
`calibrationMode = true; calibrationStartTime = null`. -/
def calibrationReset (s : DetState) : DetState :=
  { s with calibrationMode := true, calibrationStartTime := none }

/-- The LOCKED state of the claim, chat flavour: fixed mode with
calibration finished and a committed stable chat pane. -/
def LockedChat (s : DetState) : Prop :=
  s.viewMode = .chat ∧ s.calibrationMode = false ∧ s.stablePaneX > 0

/-- The LOCKED state of the claim, terminal flavour. -/
def LockedTerminal (s : DetState) : Prop :=
  s.viewMode = .terminal ∧ s.calibrationMode = false ∧ s.stablePaneY > 0

instance (s : DetState) : Decidable (LockedChat s) := by
  unfold LockedChat; infer_instance

instance (s : DetState) : Decidable (LockedTerminal s) := by
  unfold LockedTerminal; infer_instance

/-!
## The capture tick

`StreamEngine.captureAndEmit` (lines 134–248).  The whole tick body sits
in one `try { ... } catch (err) { log } finally { this.isCapturing = false }`;
there is **no** per-client `try` inside the `for` loop, so an exception
thrown while processing one client jumps straight to the outer `catch`,
skipping every later client of that tick.  The screenshot and the
per-client processing outcomes are passed in as parameters (the screenshot
result and any Jimp/detection failure are `await`ed values in the source).
-/

/-- What the tick reads about one connected client, plus whether the
per-client work for it (pane detection, crop, encode) would throw. -/
structure TickClient where
  cid : Nat
  isActive : Bool
  viewMode : ViewMode
  /-- `this.io.sockets.sockets.get(state.socketId)` is non-null. -/
  hasSocket : Bool
  /-- the per-client body throws (detection / crop / encode error). -/
  fails : Bool
deriving DecidableEq, Repr

/-- `clients.filter(c => c.isActive && ['chat','terminal','apps'].includes(c.viewMode))`. -/
def eligibleClients (cs : List TickClient) : List TickClient :=
  cs.filter (fun c => c.isActive && c.viewMode.isStreaming)

/-- The per-client `for` loop: emits a frame per client until a client's
body throws; the thrown exception aborts the whole loop (second component
`true`). -/
def emitLoop : List TickClient → List Nat × Bool
  | [] => ([], false)
  | c :: rest =>
      if !c.hasSocket then emitLoop rest
      else if c.fails then ([], true)
      else
        let (es, aborted) := emitLoop rest
        (c.cid :: es, aborted)

/-- Outcome of one `captureAndEmit` invocation. -/
structure TickResult where
  /-- `screenshot()` was invoked. -/
  captured : Bool
  /-- cids of the clients that received a `frame` emission, in order. -/
  emitted : List Nat
  /-- value of `this.isCapturing` after the invocation returns. -/
  isCapturing : Bool
deriving DecidableEq, Repr

/-- `captureAndEmit`: the in-flight guard, the no-eligible-client early
return, the screenshot, the per-client loop, and the `catch`/`finally`
that clear the in-flight flag.  `inFlight` is `this.isCapturing` on
entry; `snapshotOk` is whether `screenshot()`/`Jimp.read` succeed. -/
def captureAndEmit (inFlight : Bool) (snapshotOk : Bool)
    (cs : List TickClient) : TickResult :=
  if inFlight then ⟨false, [], true⟩
  else
    let el := eligibleClients cs
    if el.isEmpty then ⟨false, [], false⟩
    else if !snapshotOk then ⟨true, [], false⟩
    else ⟨true, (emitLoop el).1, false⟩

/-!
## Worker channel pending-call bookkeeping

`WindowDetectorWorker` (`findWindowBounds` / `findWindowBoundsByHandle`,
lines 124–198, and `processOutput`, lines 89–117).  Each issued call gets
the id `String(++this.callId)` and a `pendingCallbacks` entry; a matching
response line (`processOutput`) or the 3000 ms timeout resolves the
promise and deletes the entry, whichever reaches it first.  Ids are
modelled as the underlying counter values. -/

/-- `TIMEOUT_MS = 3000`: the per-call timeout of both geometry calls. -/
def WORKER_TIMEOUT_MS : Nat := 3000

/-- The mutable bookkeeping of the worker channel. -/
structure WorkerState where
  callId : Nat
  /-- keys of `pendingCallbacks`, in insertion order. -/
  pending : List Nat
deriving DecidableEq, Repr

/-- Issue a geometry call that missed the cache while the worker is
ready: `const id = String(++this.callId); this.pendingCallbacks.set(id, ...)`.
Returns the new state and the correlation id. -/
def issueCall (s : WorkerState) : WorkerState × Nat :=
  let id := s.callId + 1
  (⟨id, s.pending ++ [id]⟩, id)

/-- `processOutput` handling a parsed `id:result` line: the callback runs
and the entry is deleted only if the id is still pending.  The returned
`Bool` is whether the call's promise was resolved (with a parsed result)
by this line. -/
def handleResponse (s : WorkerState) (id : Nat) : WorkerState × Bool :=
  if id ∈ s.pending then ({ s with pending := s.pending.erase id }, true)
  else (s, false)

/-- The `setTimeout(..., 3000)` body of a call: if the id is still
pending, delete it and resolve the promise with `null`.  The returned
`Bool` is whether the promise was resolved (with `null`) by the timeout. -/
def fireTimeout (s : WorkerState) (id : Nat) : WorkerState × Bool :=
  if id ∈ s.pending then ({ s with pending := s.pending.erase id }, true)
  else (s, false)

/-- Events that can touch the pending map between a call's issue and its
own timeout. -/
inductive WorkerEvent
  | newCall
  | response (id : Nat)
  | timeout (id : Nat)
deriving DecidableEq, Repr

/-- The state change caused by one worker event. -/
def applyWorkerEvent : WorkerEvent → WorkerState → WorkerState
  | .newCall, s => (issueCall s).1
  | .response id, s => (handleResponse s id).1
  | .timeout id, s => (fireTimeout s id).1

/-- Process a sequence of worker events. -/
def runWorkerEvents (es : List WorkerEvent) (s : WorkerState) : WorkerState :=
  es.foldl (fun s e => applyWorkerEvent e s) s

/-- The pending map holds each key at most once (it is a JS `Map`) and
every pending id was issued by the monotone counter. -/
def WorkerInv (s : WorkerState) : Prop :=
  s.pending.Nodup ∧ ∀ i ∈ s.pending, i ≤ s.callId

/-- An event resolves a given correlation id. -/
def touches (id : Nat) : WorkerEvent → Prop
  | .newCall => False
  | .response j => j = id
  | .timeout j => j = id

instance (id : Nat) (e : WorkerEvent) : Decidable (touches id e) := by
  cases e <;> simp [touches] <;> infer_instance

/-!
## Edge detector (`server/pane-detector.js`)

`findVerticalEdges` / `findHorizontalEdges` scan integer positions along
one axis; at each position they sample the perpendicular axis at
`sampleStep` intervals and compare the colors a few pixels to either side.
An image is modelled as its dimensions plus a total pixel function (the
scan loops only ever read clamped in-range coordinates).

The `scanRegion` option is never supplied by any caller in this
repository (`StreamEngine` passes only `{quiet}` to the locators), so the
embedded options carry only the used fields; the JS `continuity` field of
a candidate always duplicates `edgeScore` and is never read, so it is not
replicated.
-/

/-- One RGBA sample (`intToRGBA`). -/
structure RGBA where
  r : Int
  g : Int
  b : Int
  a : Int
deriving DecidableEq, Repr

/-- `colorDiff(c1, c2)`: channel-wise absolute difference sum (alpha
excluded). -/
def colorDiff (c1 c2 : RGBA) : Int :=
  |c1.r - c2.r| + |c1.g - c2.g| + |c1.b - c2.b|

/-- A pixel buffer: dimensions plus pixel lookup. -/
structure Img where
  width : Int
  height : Int
  pix : Int → Int → RGBA

/-- Options consumed by both edge finders. -/
structure EdgeOptions where
  minEdgeScore : Rat
  edgeThreshold : Int
  sampleStep : Int
  marginX : Int
  marginY : Int
  fullWidth : Bool
deriving Repr

/-- Positions visited by `for (let p = lo; p < hi; p += step)` with a
positive integer step. -/
def stepPositions (lo hi step : Int) : List Int :=
  if 0 < step then
    (List.range ((hi - lo + step - 1) / step).toNat).map
      (fun k => lo + k * step)
  else []

/-- Positions visited by `for (let p = start; p > stop; p--)` where the
stop bound may be fractional (`width * 0.3`, `height * 0.3`). -/
def scanPositions (start : Int) (stop : Rat) : List Int :=
  (List.range (start - (⌊stop⌋ + 1) + 1).toNat).map (fun k => start - k)

/-- A vertical-edge candidate `{x, edgeScore}`. -/
structure VEdge where
  x : Int
  edgeScore : Rat
deriving DecidableEq, Repr

/-- A horizontal-edge candidate `{y, edgeScore}`. -/
structure HEdge where
  y : Int
  edgeScore : Rat
deriving DecidableEq, Repr

/-- The duplicate-merging loop shared by both edge finders: for each new
edge, find the first kept edge within 5px of it; if none, append the new
edge, otherwise overwrite the kept entry (position and score) when the
new score is strictly higher. -/
def insertDedup (key : α → Int) (score : α → Rat) :
    List α → α → List α
  | [], e => [e]
  | e0 :: rest, e =>
      if |key e0 - key e| < 5 then
        (if score e > score e0 then e else e0) :: rest
      else e0 :: insertDedup key score rest e

/-- `filtered` accumulation over all raw edges, in order. -/
def dedupBy (key : α → Int) (score : α → Rat) (es : List α) : List α :=
  es.foldl (insertDedup key score) []

/-- Stable insertion into a descending-by-key list (later elements with
an equal key stay behind earlier ones, as with JS's stable sort). -/
def insertDescend (key : α → Int) (e : α) : List α → List α
  | [] => [e]
  | x :: xs =>
      if key e > key x then e :: x :: xs else x :: insertDescend key e xs

/-- `.sort((a, b) => b.key - a.key)`: stable sort, descending by key. -/
def sortDescBy (key : α → Int) : List α → List α
  | [] => []
  | x :: xs => insertDescend key x (sortDescBy key xs)

/-- The inner sampling loop of `findVerticalEdges` at one scan position
`x`: count sampled rows whose left/right color difference exceeds the
threshold, form `edgeScore = edgeCount / totalSamples` (0 when nothing
was sampled), and keep the position iff the score reaches
`minEdgeScore`. -/
def vEdgeCandidate (img : Img) (o : EdgeOptions) (x : Int) : Option VEdge :=
  let ys := stepPositions o.marginY (img.height - o.marginY) o.sampleStep
  let hits := (ys.filter (fun y =>
    colorDiff (img.pix (max 0 (x - 3)) y)
              (img.pix (min (img.width - 1) (x + 3)) y)
      > o.edgeThreshold)).length
  let edgeScore : Rat :=
    if ys.length = 0 then 0 else (hits : Rat) / (ys.length : Rat)
  if edgeScore ≥ o.minEdgeScore then some (VEdge.mk x edgeScore) else none

/-- `findVerticalEdges(image, options)` (pane-detector.js lines 80–147):
scan x from `width - marginX` down to (exclusive) `marginX` when
`fullWidth` and `width * 0.3` otherwise; at each x keep the candidate
per `vEdgeCandidate`; merge near-duplicates, then sort by x
descending. -/
def findVerticalEdges (img : Img) (o : EdgeOptions) : List VEdge :=
  let startX := img.width - o.marginX
  let endX : Rat :=
    if o.fullWidth then (o.marginX : Rat) else (img.width : Rat) * (3/10)
  let raw := (scanPositions startX endX).filterMap (vEdgeCandidate img o)
  sortDescBy (·.x) (dedupBy (·.x) (·.edgeScore) raw)

/-- The inner sampling loop of `findHorizontalEdges` at one scan
position `y`. -/
def hEdgeCandidate (img : Img) (o : EdgeOptions) (y : Int) : Option HEdge :=
  let xs := stepPositions o.marginX (img.width - o.marginX) o.sampleStep
  let hits := (xs.filter (fun x =>
    colorDiff (img.pix x (max 0 (y - 3)))
              (img.pix x (min (img.height - 1) (y + 3)))
      > o.edgeThreshold)).length
  let edgeScore : Rat :=
    if xs.length = 0 then 0 else (hits : Rat) / (xs.length : Rat)
  if edgeScore ≥ o.minEdgeScore then some (HEdge.mk y edgeScore) else none

/-- `findHorizontalEdges(image, options)` (pane-detector.js lines
253–315): scan y from `height - 5` down to (exclusive) `height * 0.3`;
at each y keep the candidate per `hEdgeCandidate`; merge
near-duplicates, then sort by y descending. -/
def findHorizontalEdges (img : Img) (o : EdgeOptions) : List HEdge :=
  let startY := img.height - 5
  let endY : Rat := (img.height : Rat) * (3/10)
  let raw := (scanPositions startY endY).filterMap (hEdgeCandidate img o)
  sortDescBy (·.y) (dedupBy (·.y) (·.edgeScore) raw)

/-!
## Terminal-pane bottom-separator selection

`findTerminalPane` (pane-detector.js lines 379–400), given the already
chosen top separator and the full horizontal-edge candidate list:

```js
const bottomCandidates = horizontalEdges.filter(e =>
    e.y > topSeparator.y + 100 && e.y < height - 5
).sort((a, b) => b.y - a.y);
let bottomSeparatorY = height;
if (bottomCandidates.length > 0) {
    bottomSeparatorY = bottomCandidates[0].y;
    if (bottomCandidates.length > 1 && (height - bottomCandidates[0].y) < 25) {
        if (Math.abs(bottomCandidates[1].y - bottomCandidates[0].y) < 45) {
            bottomSeparatorY = bottomCandidates[1].y;
        }
    }
} else {
    bottomSeparatorY = height - 25;
}
```
-/

/-- The bottom-candidate filter of `findTerminalPane`. -/
def bottomCandidatesOf (height topY : Int) (horizontalEdges : List HEdge) :
    List HEdge :=
  sortDescBy (·.y)
    (horizontalEdges.filter (fun e => e.y > topY + 100 && e.y < height - 5))

/-- The bottom-separator selection of `findTerminalPane` (lines 379–400). -/
def selectBottomSeparator (height topY : Int)
    (horizontalEdges : List HEdge) : Int :=
  match bottomCandidatesOf height topY horizontalEdges with
  | [] => height - 25
  | c0 :: rest =>
      match rest with
      | c1 :: _ =>
          if height - c0.y < 25 && |c1.y - c0.y| < 45 then c1.y else c0.y
      | [] => c0.y

/-!
## Helper lemmas
-/

/-- Membership is preserved by `insertDescend`. -/
theorem mem_insertDescend {α : Type} (key : α → Int) (e a : α) :
    ∀ l : List α, a ∈ insertDescend key e l ↔ a = e ∨ a ∈ l := by
  intro l
  induction l with
  | nil => simp [insertDescend]
  | cons x xs ih =>
      simp only [insertDescend]
      split
      · simp [List.mem_cons]
      · simp [List.mem_cons, ih]
        tauto

/-- Membership is preserved by `sortDescBy`. -/
theorem mem_sortDescBy {α : Type} (key : α → Int) (a : α) :
    ∀ l : List α, a ∈ sortDescBy key l ↔ a ∈ l := by
  intro l
  induction l with
  | nil => simp [sortDescBy]
  | cons x xs ih =>
      simp [sortDescBy, mem_insertDescend, ih, List.mem_cons]

/-- The head of the descending sort is a maximal element. -/
theorem sortDescBy_head_max {α : Type} (key : α → Int) :
    ∀ (l : List α) (c : α) (cs : List α), sortDescBy key l = c :: cs →
      c ∈ l ∧ ∀ e ∈ l, key e ≤ key c := by
  intro l
  induction l with
  | nil => intro c cs h; simp [sortDescBy] at h
  | cons x xs ih =>
      intro c cs h
      simp only [sortDescBy] at h
      cases hxs : sortDescBy key xs with
      | nil =>
          rw [hxs] at h
          simp only [insertDescend] at h
          cases h
          constructor
          · exact List.mem_cons_self x xs
          · intro e he
            rcases List.mem_cons.mp he with rfl | he
            · exact le_refl _
            · have : e ∈ sortDescBy key xs := (mem_sortDescBy key e xs).mpr he
              rw [hxs] at this
              simp at this
      | cons y ys =>
          rw [hxs] at h
          have hy := ih y ys hxs
          simp only [insertDescend] at h
          split at h
          · rename_i hgt
            cases h
            constructor
            · exact List.mem_cons_self x xs
            · intro e he
              rcases List.mem_cons.mp he with rfl | he
              · exact le_refl _
              · exact le_trans (hy.2 e he) (le_of_lt hgt)
          · rename_i hle
            cases h
            constructor
            · exact List.mem_cons_of_mem x hy.1
            · intro e he
              rcases List.mem_cons.mp he with rfl | he
              · exact le_of_not_lt hle
              · exact hy.2 e he

/-- An initial value never exceeds a left max-fold over it. -/
theorem init_le_foldl_max : ∀ (l : List Rat) (init : Rat),
    init ≤ l.foldl max init := by
  intro l
  induction l with
  | nil => intro init; exact le_refl _
  | cons x xs ih =>
      intro init
      exact le_trans (le_max_left init x) (ih (max init x))

/-- List elements never exceed a left max-fold. -/
theorem mem_le_foldl_max : ∀ (l : List Rat) (init x : Rat), x ∈ l →
    x ≤ l.foldl max init := by
  intro l
  induction l with
  | nil => intro init x hx; simp at hx
  | cons y ys ih =>
      intro init x hx
      rcases List.mem_cons.mp hx with rfl | hx
      · exact le_trans (le_max_right init x) (init_le_foldl_max ys (max init x))
      · exact ih (max init y) x hx

/-- A left max-fold is the initial value or some list element. -/
theorem foldl_max_eq_init_or_mem : ∀ (l : List Rat) (init : Rat),
    l.foldl max init = init ∨ ∃ x ∈ l, l.foldl max init = x := by
  intro l
  induction l with
  | nil => intro init; exact Or.inl rfl
  | cons y ys ih =>
      intro init
      rcases ih (max init y) with h | ⟨x, hx, h⟩
      · rcases max_choice init y with hm | hm
        · exact Or.inl (by rw [List.foldl_cons, h, hm])
        · exact Or.inr ⟨y, List.mem_cons_self y ys, by rw [List.foldl_cons, h, hm]⟩
      · exact Or.inr ⟨x, List.mem_cons_of_mem y hx, by rw [List.foldl_cons, h]⟩

/-- The emit loop emits exactly the clients with a live socket that
precede the first failing one. -/
theorem emitLoop_eq_takeWhile : ∀ cs : List TickClient,
    (emitLoop cs).1 =
      ((cs.filter (·.hasSocket)).takeWhile (fun c => !c.fails)).map (·.cid) := by
  intro cs
  induction cs with
  | nil => rfl
  | cons c rest ih =>
      by_cases hs : c.hasSocket
      · by_cases hf : c.fails
        · simp [emitLoop, hs, hf, List.takeWhile]
        · simp [emitLoop, hs, hf, List.takeWhile, ih]
      · simp [emitLoop, hs, ih]

/-!
## Claims
-/

/-- **C1, counterexample.** In a tick with two eligible clients where the
first client's processing throws, the second client receives no frame:
the single tick-level `catch` aborts the per-client loop. -/
theorem c1_failing_client_aborts_tick :
    (captureAndEmit false true
      [⟨1, true, .chat, true, true⟩, ⟨2, true, .chat, true, false⟩]).emitted = [] ∧
    (⟨2, true, .chat, true, false⟩ : TickClient) ∈
      eligibleClients
        [⟨1, true, .chat, true, true⟩, ⟨2, true, .chat, true, false⟩] ∧
    (2 : Nat) ∉ (captureAndEmit false true
      [⟨1, true, .chat, true, true⟩, ⟨2, true, .chat, true, false⟩]).emitted := by
  decide

/-- **C1 (amended).** A per-client failure is caught (and logged) at the
*tick* level, not per client: the clients that received frames in a tick
are exactly the eligible clients with a live socket preceding the first
failing one, and the in-flight flag is cleared afterwards regardless, so
the scheduler's timer keeps ticking. -/
theorem c1_tick_failure_containment (cs : List TickClient) :
    (captureAndEmit false true cs).emitted =
      (((eligibleClients cs).filter (·.hasSocket)).takeWhile
        (fun c => !c.fails)).map (·.cid) ∧
    (captureAndEmit false true cs).isCapturing = false := by
  unfold captureAndEmit
  by_cases hemp : (eligibleClients cs).isEmpty
  · simp [hemp, List.isEmpty_iff.mp hemp]
  · simp [hemp, emitLoop_eq_takeWhile]

/-- **C7.** A tick performs no capture and emits nothing when a previous
tick is still in flight or when no client is both active and in a
streaming mode; whenever the guard is passed the in-flight flag is
cleared on completion, for every outcome (no eligible clients, snapshot
failure, per-client failures). -/
theorem c7_tick_guard (inFlight snapshotOk : Bool) (cs : List TickClient) :
    ((captureAndEmit true snapshotOk cs).captured = false ∧
     (captureAndEmit true snapshotOk cs).emitted = [] ∧
     (captureAndEmit true snapshotOk cs).isCapturing = true) ∧
    (eligibleClients cs = [] →
       (captureAndEmit inFlight snapshotOk cs).captured = false ∧
       (captureAndEmit inFlight snapshotOk cs).emitted = []) ∧
    (inFlight = false →
       (captureAndEmit false snapshotOk cs).isCapturing = false) := by
  refine ⟨by simp [captureAndEmit], ?_, ?_⟩
  · intro hemp
    cases inFlight <;> simp [captureAndEmit, hemp]
  · intro _
    by_cases hemp : (eligibleClients cs).isEmpty <;>
      cases snapshotOk <;> simp [captureAndEmit, hemp]

/-- Witness for `c7_tick_guard` at concrete inputs. -/
theorem c7_tick_guard_witness :
    (captureAndEmit true true [TickClient.mk 1 true .chat true false]).captured
      = false ∧
    (captureAndEmit false true ([] : List TickClient)).emitted = [] ∧
    (captureAndEmit false false [TickClient.mk 1 true .chat true false]).isCapturing
      = false :=
  ⟨(c7_tick_guard true true [TickClient.mk 1 true .chat true false]).1.1,
   ((c7_tick_guard false true []).2.1 rfl).2,
   (c7_tick_guard false false [TickClient.mk 1 true .chat true false]).2.2 rfl⟩

/-- **C10, counterexample.** A detected window entirely beyond the
snapshot's right edge (x=2000, w=100 against a 1920-wide snapshot)
survives the clipping step with a *negative* width. -/
theorem c10_offscreen_window_negative_width :
    clipRect 2000 0 100 100 1920 1080 = ⟨2000, 0, -80, 100⟩ ∧
    ¬(0 < (clipRect 2000 0 100 100 1920 1080).w) := by
  decide

/-- **C10 (amended).** The clipped rectangle always satisfies `x ≥ 0`,
`y ≥ 0`, `x + w ≤ sw` and `y + h ≤ sh`; its width (height) is positive
only under the extra assumptions that the incoming width (height) was
positive and the clamped origin still lies strictly inside the
snapshot. -/
theorem c10_clip_bounds_amended (bx byv bw bh sw sh : Int) :
    0 ≤ (clipRect bx byv bw bh sw sh).x ∧
    0 ≤ (clipRect bx byv bw bh sw sh).y ∧
    (clipRect bx byv bw bh sw sh).x + (clipRect bx byv bw bh sw sh).w ≤ sw ∧
    (clipRect bx byv bw bh sw sh).y + (clipRect bx byv bw bh sw sh).h ≤ sh ∧
    (0 < bw → (clipRect bx byv bw bh sw sh).x < sw →
        0 < (clipRect bx byv bw bh sw sh).w) ∧
    (0 < bh → (clipRect bx byv bw bh sw sh).y < sh →
        0 < (clipRect bx byv bw bh sw sh).h) := by
  simp only [clipRect]
  split_ifs <;> simp_all

/-- Witness for `c10_clip_bounds_amended` at a concrete in-bounds input. -/
theorem c10_clip_bounds_witness :
    0 < (clipRect 100 100 50 50 1920 1080).w ∧
    0 < (clipRect 100 100 50 50 1920 1080).h :=
  ⟨(c10_clip_bounds_amended 100 100 50 50 1920 1080).2.2.2.2.1
      (by decide) (by decide),
   (c10_clip_bounds_amended 100 100 50 50 1920 1080).2.2.2.2.2
      (by decide) (by decide)⟩

/-- **C3, counterexample.** With `lastCaptureArea.x = 10`, click x = 2,
DPI scale sx = 2, no downscale and an effective `cropLeft` of 3, the
handler moves the mouse to logical x = 8, whereas `(x + cx)/sx` is 6:
the computed value is neither crop-free nor exact (it is rounded). -/
theorem c3_click_not_exact :
    clickLogical 10 20 3 0 1 2 1 2 4 = (8, 24) ∧
    ((clickLogical 10 20 3 0 1 2 1 2 4).1 : Rat) ≠ ((10 : Rat) + 2) / 2 := by
  have h1 : (((10 : Int) : Rat) + (2 : Rat) / 1 + ((3 : Int) : Rat)) / 2 + 1/2
      = (((8 : Int)) : Rat) := by norm_num
  have h2 : (((20 : Int) : Rat) + (4 : Rat) / 1 + ((0 : Int) : Rat)) / 1 + 1/2
      = (24 : Rat) + 1/2 := by norm_num
  have hfst : (clickLogical 10 20 3 0 1 2 1 2 4).1 = 8 := by
    show jsRound ((((10 : Int) : Rat) + (2 : Rat) / 1 + ((3 : Int) : Rat)) / 2) = 8
    unfold jsRound
    rw [h1, Int.floor_intCast]
  have hsnd : (clickLogical 10 20 3 0 1 2 1 2 4).2 = 24 := by
    show jsRound ((((20 : Int) : Rat) + (4 : Rat) / 1 + ((0 : Int) : Rat)) / 1) = 24
    unfold jsRound
    rw [h2]
    norm_num [Int.floor_eq_iff]
  refine ⟨?_, ?_⟩
  · exact Prod.ext hfst hsnd
  · rw [hfst]
    norm_num

/-- **C3 (amended).** The handler computes
`Math.round((area.x + cx/downscale + cropLeft) / sx)` (and the analogue
for y).  With zero crop offsets and unit downscale this is the *rounding*
of `(x + cx)/sx`, which equals `(x + cx)/sx` exactly precisely when that
quotient is an integer. -/
theorem c3_click_translation_amended (areaX areaY : Int) (sx sy cx cy : Rat) :
    clickLogical areaX areaY 0 0 1 sx sy cx cy =
      (jsRound ((areaX + cx) / sx), jsRound ((areaY + cy) / sy)) ∧
    (∀ n : Int, (areaX + cx) / sx = (n : Rat) →
        (clickLogical areaX areaY 0 0 1 sx sy cx cy).1 = n) ∧
    (∀ n : Int, (areaY + cy) / sy = (n : Rat) →
        (clickLogical areaX areaY 0 0 1 sx sy cx cy).2 = n) := by
  have hx : ((areaX : Rat) + cx / 1 + ((0 : Int) : Rat)) = (areaX : Rat) + cx := by
    norm_num
  have hy : ((areaY : Rat) + cy / 1 + ((0 : Int) : Rat)) = (areaY : Rat) + cy := by
    norm_num
  have hround : ∀ n : Int, jsRound ((n : Rat)) = n := by
    intro n
    unfold jsRound
    rw [Int.floor_int_add]
    norm_num
  refine ⟨?_, ?_, ?_⟩
  · show (jsRound (((areaX : Rat) + cx / 1 + ((0 : Int) : Rat)) / sx),
        jsRound (((areaY : Rat) + cy / 1 + ((0 : Int) : Rat)) / sy)) =
      (jsRound (((areaX : Rat) + cx) / sx), jsRound (((areaY : Rat) + cy) / sy))
    rw [hx, hy]
  · intro n hn
    show jsRound (((areaX : Rat) + cx / 1 + ((0 : Int) : Rat)) / sx) = n
    rw [hx, hn]
    exact hround n
  · intro n hn
    show jsRound (((areaY : Rat) + cy / 1 + ((0 : Int) : Rat)) / sy) = n
    rw [hy, hn]
    exact hround n

/-- Witness for `c3_click_translation_amended`: area x = 0, click x = 4,
sx = 2 — the quotient 2 is integral and is what the handler passes. -/
theorem c3_click_translation_witness :
    (clickLogical 0 0 0 0 1 2 1 4 0).1 = 2 ∧
    (((0 : Int) : Rat) + 4) / 2 = ((2 : Int) : Rat) :=
  ⟨(c3_click_translation_amended 0 0 2 1 4 0).2.1 2 (by norm_num),
   by norm_num⟩

/-- **C6, counterexample.** With global fps 10 and a single *inactive*,
*idle* client whose effective fps is 60, `updateInterval` produces a
1000/60 ms interval, while the claimed rule (max over active streaming
clients only) yields 100 ms: the code ignores activity and view mode. -/
theorem c6_inactive_client_raises_fps :
    updateIntervalMs false 5 10 [⟨false, .idle, 60⟩] = 50 / 3 ∧
    specIntervalMs false 5 10 [⟨false, .idle, 60⟩] = 100 ∧
    updateIntervalMs false 5 10 [⟨false, .idle, 60⟩] ≠
      specIntervalMs false 5 10 [⟨false, .idle, 60⟩] := by
  have hcode : updateTargetFps false 5 10 [⟨false, .idle, 60⟩] = 60 := by
    show List.foldl max 10 [(60 : Rat)] = 60
    simp only [List.foldl_cons, List.foldl_nil]
    rw [max_eq_right (by norm_num : (10 : Rat) ≤ 60)]
  have hspec : specTargetFps false 5 10 [⟨false, .idle, 60⟩] = 10 := by
    show ((([⟨false, .idle, 60⟩] : List EngineClient).filter
        (fun c => c.isActive && c.viewMode.isStreaming)).map (·.fps)).foldl max 10 = 10
    rfl
  refine ⟨?_, ?_, ?_⟩
  · show 1000 / updateTargetFps false 5 10 [⟨false, .idle, 60⟩] = 50 / 3
    rw [hcode]; norm_num
  · show 1000 / specTargetFps false 5 10 [⟨false, .idle, 60⟩] = 100
    rw [hspec]; norm_num
  · show 1000 / updateTargetFps false 5 10 [⟨false, .idle, 60⟩] ≠
      1000 / specTargetFps false 5 10 [⟨false, .idle, 60⟩]
    rw [hcode, hspec]; norm_num

/-- **C6 (amended).** The interval is `1000 / targetFps` where, in
low-resource mode, `targetFps` is exactly the configured low-resource fps
(client overrides and the global default are ignored), and otherwise
`targetFps` is the maximum of the global default fps and the effective
fps of *every connected client*, regardless of activity or view mode. -/
theorem c6_interval_amended (lowResFps globalFps : Rat)
    (cs : List EngineClient) :
    updateIntervalMs true lowResFps globalFps cs = 1000 / lowResFps ∧
    updateIntervalMs false lowResFps globalFps cs =
      1000 / updateTargetFps false lowResFps globalFps cs ∧
    globalFps ≤ updateTargetFps false lowResFps globalFps cs ∧
    (∀ c ∈ cs, c.fps ≤ updateTargetFps false lowResFps globalFps cs) ∧
    (updateTargetFps false lowResFps globalFps cs = globalFps ∨
      ∃ c ∈ cs, updateTargetFps false lowResFps globalFps cs = c.fps) := by
  have hT : updateTargetFps false lowResFps globalFps cs =
      (cs.map (·.fps)).foldl max globalFps := rfl
  refine ⟨rfl, rfl, ?_, ?_, ?_⟩
  · rw [hT]; exact init_le_foldl_max _ _
  · intro c hc
    rw [hT]
    exact mem_le_foldl_max _ _ _ (List.mem_map_of_mem _ hc)
  · rw [hT]
    rcases foldl_max_eq_init_or_mem (cs.map (·.fps)) globalFps with hcase | ⟨x, hx, hcase⟩
    · exact Or.inl hcase
    · rcases List.mem_map.mp hx with ⟨c, hc, rfl⟩
      exact Or.inr ⟨c, hc, hcase⟩

/-- Witness for `c6_interval_amended` at a concrete client list. -/
theorem c6_interval_witness :
    (EngineClient.mk true .chat 60).fps ≤
      updateTargetFps false 5 10 [EngineClient.mk true .chat 60] ∧
    updateIntervalMs true 5 10 [EngineClient.mk true .chat 60] = 1000 / 5 :=
  ⟨(c6_interval_amended 5 10 [EngineClient.mk true .chat 60]).2.2.2.1
      (EngineClient.mk true .chat 60) (List.mem_singleton_self _),
   (c6_interval_amended 5 10 [EngineClient.mk true .chat 60]).1⟩

/-- **C4, counterexample.** In the claimed 1200×900 scenario (top
separator y=700, bottom candidates y=850 and y=820), the bottom separator
resolves to y=850, not y=820: y=850 lies 50px above the image bottom, so
the within-25px status-bar correction does not fire. -/
theorem c4_scenario_resolves_to_850 :
    selectBottomSeparator 900 700
      [HEdge.mk 700 (9/10), HEdge.mk 850 (19/20), HEdge.mk 820 (1/2)] = 850 ∧
    (850 : Int) ≠ 820 := by
  constructor
  · rfl
  · decide

/-- **C4 (amended).** The bottom separator is the bottommost candidate
strictly more than 100px below the top separator and strictly above
`height - 5` (with `height - 25` as the no-candidate fallback); only when
that candidate lies strictly within 25px of the image bottom *and* the
next candidate up is within 45px of it is the next candidate preferred.
In the 1200×900 scenario this yields y=850 (50px from the bottom), not
y=820. -/
theorem c4_bottom_separator_rule (h top : Int) (es : List HEdge) :
    (es.filter (fun e => e.y > top + 100 && e.y < h - 5) = [] →
        selectBottomSeparator h top es = h - 25) ∧
    (∀ c cs, bottomCandidatesOf h top es = c :: cs →
        (c ∈ es.filter (fun e => e.y > top + 100 && e.y < h - 5) ∧
         ∀ e ∈ es.filter (fun e => e.y > top + 100 && e.y < h - 5), e.y ≤ c.y) ∧
        (cs = [] → selectBottomSeparator h top es = c.y) ∧
        (¬(h - c.y < 25) → selectBottomSeparator h top es = c.y) ∧
        (∀ c1 cs1, cs = c1 :: cs1 → h - c.y < 25 → |c1.y - c.y| < 45 →
            selectBottomSeparator h top es = c1.y) ∧
        (∀ c1 cs1, cs = c1 :: cs1 → h - c.y < 25 → ¬(|c1.y - c.y| < 45) →
            selectBottomSeparator h top es = c.y)) := by
  constructor
  · intro hemp
    unfold selectBottomSeparator bottomCandidatesOf
    rw [hemp]
    rfl
  · intro c cs hcc
    have hcc' : sortDescBy (fun e => e.y)
        (es.filter (fun e => e.y > top + 100 && e.y < h - 5)) = c :: cs := hcc
    have hhead : c ∈ es.filter (fun e => e.y > top + 100 && e.y < h - 5) ∧
        ∀ e ∈ es.filter (fun e => e.y > top + 100 && e.y < h - 5), e.y ≤ c.y :=
      sortDescBy_head_max (fun e => e.y) _ c cs hcc'
    refine ⟨hhead, ?_, ?_, ?_, ?_⟩
    · intro hnil
      subst hnil
      unfold selectBottomSeparator
      rw [hcc]
    · intro hfar
      unfold selectBottomSeparator
      rw [hcc]
      cases cs with
      | nil => rfl
      | cons c1 cs1 => simp [hfar]
    · intro c1 cs1 hcs hnear hgap
      subst hcs
      unfold selectBottomSeparator
      rw [hcc]
      simp [hnear, hgap]
    · intro c1 cs1 hcs hnear hgap
      subst hcs
      unfold selectBottomSeparator
      rw [hcc]
      simp [hnear, hgap]

/-- Witness for `c4_bottom_separator_rule`: with height 880, the lowest
candidate y=860 is 20px from the bottom and the next candidate y=830 is
30px above it, so the correction fires and selects 830. -/
theorem c4_bottom_separator_witness :
    selectBottomSeparator 880 700 [HEdge.mk 860 (19/20), HEdge.mk 830 (1/2)]
      = 830 :=
  ((c4_bottom_separator_rule 880 700
      [HEdge.mk 860 (19/20), HEdge.mk 830 (1/2)]).2
    (HEdge.mk 860 (19/20)) [HEdge.mk 830 (1/2)] (by rfl)).2.2.2.1
    (HEdge.mk 830 (1/2)) [] rfl (by decide) (by decide)

/-- `detectPreamble` only advances the frame counter once calibration is
over. -/
theorem detectPreamble_still (now : Int) (s : DetState)
    (h : s.calibrationMode = false) :
    detectPreamble now s = { s with frameCount := s.frameCount + 1 } := by
  cases hst : s.calibrationStartTime with
  | none => simp [detectPreamble, h, hst]
  | some t => simp [detectPreamble, h, hst]

/-- `detectPreamble` touches only `calibrationMode`,
`calibrationStartTime` and `frameCount`, increments the latter, and never
re-enables calibration. -/
theorem detectPreamble_shape (now : Int) (s : DetState) :
    ∃ cm st, detectPreamble now s =
      { s with calibrationMode := cm,
               calibrationStartTime := st,
               frameCount := s.frameCount + 1 } ∧
      (s.calibrationMode = false → cm = s.calibrationMode) := by
  by_cases h1 : (s.calibrationMode && decide (s.calibrationStartTime = none)) = true
  · refine ⟨s.calibrationMode, some now, ?_, fun _ => rfl⟩
    rw [Bool.and_eq_true, decide_eq_true_eq] at h1
    simp [detectPreamble, h1.1, h1.2, CALIBRATION_DURATION]
  · cases hst : s.calibrationStartTime with
    | none =>
        have hcal : s.calibrationMode = false := by
          cases hcm : s.calibrationMode
          · rfl
          · exact absurd (by rw [hcm, hst]; rfl) h1
        refine ⟨s.calibrationMode, s.calibrationStartTime, ?_, fun _ => rfl⟩
        rw [detectPreamble_still now s hcal]
    | some t =>
        by_cases h2 : (s.calibrationMode && decide (t ≠ 0) &&
            decide (now - t ≥ CALIBRATION_DURATION)) = true
        · refine ⟨false, s.calibrationStartTime, ?_, ?_⟩
          · have hparts := h2
            rw [Bool.and_eq_true, Bool.and_eq_true, decide_eq_true_eq,
              decide_eq_true_eq] at hparts
            simp [detectPreamble, h1, hst, h2]
            intro himp
            exact absurd (himp hparts.1.1 hparts.1.2) (not_lt.mpr hparts.2)
          · intro hc
            rw [Bool.and_eq_true, Bool.and_eq_true] at h2
            rw [hc] at h2
            simp at h2
        · refine ⟨s.calibrationMode, s.calibrationStartTime, ?_, fun _ => rfl⟩
          have h2' : s.calibrationMode = true → ¬t = 0 →
              now - t < CALIBRATION_DURATION := by
            intro hcm ht
            by_contra hge
            apply h2
            rw [Bool.and_eq_true, Bool.and_eq_true, decide_eq_true_eq,
              decide_eq_true_eq]
            exact ⟨⟨hcm, ht⟩, not_lt.mp hge⟩
          simp [detectPreamble, h1, hst]
          intro hcm ht hge
          exact absurd hge (not_le.mpr (h2' hcm ht))

/-- A chat-mode detection run whose observation disagrees with the
stored `lastPaneX` by 5px or more: the stability counter resets to 0 and
the new observation becomes the anchor. -/
theorem chat_step_mismatch (isFixed : Bool) (now obs : Int) (s : DetState)
    (hvm : s.viewMode = .chat) (hstable : s.stablePaneX = -1)
    (hmis : ¬(|obs - s.lastPaneX| < 5)) :
    ∃ cm st, performPaneDetection isFixed now (some obs) none s =
      ({ s with calibrationMode := cm,
                calibrationStartTime := st,
                frameCount := s.frameCount + 1,
                stabilityCount := 0,
                lastPaneX := obs }, true) := by
  obtain ⟨cm, st, hpre, -⟩ := detectPreamble_shape now s
  refine ⟨cm, st, ?_⟩
  unfold performPaneDetection
  rw [hpre]
  simp [hvm, hstable, hmis]

/-- A chat-mode detection run whose observation agrees with `lastPaneX`
while the quorum is not yet reached: the counter increments, nothing is
committed. -/
theorem chat_step_progress (isFixed : Bool) (now obs : Int) (s : DetState)
    (hvm : s.viewMode = .chat) (hstable : s.stablePaneX = -1)
    (hmatch : |obs - s.lastPaneX| < 5) (hcnt : s.stabilityCount + 1 < 3) :
    ∃ cm st, performPaneDetection isFixed now (some obs) none s =
      ({ s with calibrationMode := cm,
                calibrationStartTime := st,
                frameCount := s.frameCount + 1,
                stabilityCount := s.stabilityCount + 1 }, true) := by
  obtain ⟨cm, st, hpre, -⟩ := detectPreamble_shape now s
  refine ⟨cm, st, ?_⟩
  have hlt : ¬(s.stabilityCount + 1 ≥ 3) := by omega
  unfold performPaneDetection
  rw [hpre]
  simp [hvm, hstable, hmatch, hlt]

/-- A chat-mode detection run that reaches the quorum: `stablePaneX` is
committed to the *anchor* `lastPaneX`, and in fixed mode the zone is
saved and calibration stopped. -/
theorem chat_step_commit (isFixed : Bool) (now obs : Int) (s : DetState)
    (hvm : s.viewMode = .chat) (hstable : s.stablePaneX = -1)
    (hmatch : |obs - s.lastPaneX| < 5) (hcnt : 2 ≤ s.stabilityCount) :
    ∃ cm st, performPaneDetection isFixed now (some obs) none s =
      (if isFixed then
        { s with calibrationMode := false,
                 calibrationStartTime := st,
                 frameCount := s.frameCount + 1,
                 stabilityCount := s.stabilityCount + 1,
                 stablePaneX := s.lastPaneX,
                 fixedChatZone := some s.lastPaneX }
       else
        { s with calibrationMode := cm,
                 calibrationStartTime := st,
                 frameCount := s.frameCount + 1,
                 stabilityCount := s.stabilityCount + 1,
                 stablePaneX := s.lastPaneX }, true) := by
  obtain ⟨cm, st, hpre, -⟩ := detectPreamble_shape now s
  refine ⟨cm, st, ?_⟩
  have hge : s.stabilityCount + 1 ≥ 3 := by omega
  unfold performPaneDetection
  rw [hpre]
  cases isFixed <;> simp [hvm, hstable, hmatch, hge]

/-- Unfolding equation for `runDetection` on a cons cell. -/
theorem runDetection_cons (f : Bool) (i : DetInput) (is : List DetInput)
    (s : DetState) :
    runDetection f (i :: is) s =
      ((runDetection f is
          (performPaneDetection f i.now i.chatResult i.termResult s).1).1,
       (if (performPaneDetection f i.now i.chatResult i.termResult s).2
          then 1 else 0) +
         (runDetection f is
          (performPaneDetection f i.now i.chatResult i.termResult s).1).2) :=
  rfl

/-- Unfolding equation for `runDetection` on the empty input list. -/
theorem runDetection_nil (f : Bool) (s : DetState) :
    runDetection f [] s = (s, 0) := rfl

/-- Projection form of `chat_step_mismatch`. -/
theorem chat_step_mismatch_proj (isFixed : Bool) (now obs : Int) (s : DetState)
    (hvm : s.viewMode = .chat) (hstable : s.stablePaneX = -1)
    (hmis : ¬(|obs - s.lastPaneX| < 5)) :
    (performPaneDetection isFixed now (some obs) none s).2 = true ∧
    (performPaneDetection isFixed now (some obs) none s).1.viewMode
      = s.viewMode ∧
    (performPaneDetection isFixed now (some obs) none s).1.stablePaneX
      = s.stablePaneX ∧
    (performPaneDetection isFixed now (some obs) none s).1.lastPaneX = obs ∧
    (performPaneDetection isFixed now (some obs) none s).1.stabilityCount
      = 0 := by
  obtain ⟨cm, st, h⟩ := chat_step_mismatch isFixed now obs s hvm hstable hmis
  rw [h]
  simp

/-- Projection form of `chat_step_progress`. -/
theorem chat_step_progress_proj (isFixed : Bool) (now obs : Int) (s : DetState)
    (hvm : s.viewMode = .chat) (hstable : s.stablePaneX = -1)
    (hmatch : |obs - s.lastPaneX| < 5) (hcnt : s.stabilityCount + 1 < 3) :
    (performPaneDetection isFixed now (some obs) none s).2 = true ∧
    (performPaneDetection isFixed now (some obs) none s).1.viewMode
      = s.viewMode ∧
    (performPaneDetection isFixed now (some obs) none s).1.stablePaneX
      = s.stablePaneX ∧
    (performPaneDetection isFixed now (some obs) none s).1.lastPaneX
      = s.lastPaneX ∧
    (performPaneDetection isFixed now (some obs) none s).1.stabilityCount
      = s.stabilityCount + 1 := by
  obtain ⟨cm, st, h⟩ := chat_step_progress isFixed now obs s hvm hstable
    hmatch hcnt
  rw [h]
  simp

/-- Projection form of `chat_step_commit`. -/
theorem chat_step_commit_proj (isFixed : Bool) (now obs : Int) (s : DetState)
    (hvm : s.viewMode = .chat) (hstable : s.stablePaneX = -1)
    (hmatch : |obs - s.lastPaneX| < 5) (hcnt : 2 ≤ s.stabilityCount) :
    (performPaneDetection isFixed now (some obs) none s).2 = true ∧
    (performPaneDetection isFixed now (some obs) none s).1.stablePaneX
      = s.lastPaneX ∧
    (performPaneDetection isFixed now (some obs) none s).1.stabilityCount
      = s.stabilityCount + 1 ∧
    (isFixed = true →
      (performPaneDetection isFixed now (some obs) none s).1.fixedChatZone
        = some s.lastPaneX ∧
      (performPaneDetection isFixed now (some obs) none s).1.calibrationMode
        = false) := by
  obtain ⟨cm, st, h⟩ := chat_step_commit isFixed now obs s hvm hstable
    hmatch hcnt
  rw [h]
  cases isFixed <;> simp

/-- **C2, counterexample.** From the initial detection state, the three
locator results x = 620, 622, 619 do *not* commit a stable pane: after
the third result `stablePaneX` is still -1 (the stability counter is
only 2), so in particular it does not equal 619 and the client is not
tracking. -/
theorem c2_three_results_no_commit :
    (runDetection false [⟨0, some 620, none⟩, ⟨1, some 622, none⟩,
      ⟨2, some 619, none⟩] defaultDetState).1.stablePaneX = -1 ∧
    (runDetection false [⟨0, some 620, none⟩, ⟨1, some 622, none⟩,
      ⟨2, some 619, none⟩] defaultDetState).1.stabilityCount = 2 ∧
    ((-1 : Int) ≠ 619) := by
  refine ⟨rfl, rfl, by decide⟩

/-- **C2 (amended).** The first locator result only sets the anchor
`lastPaneX`; commitment requires the stability counter to reach 3, i.e.
three *further* consecutive results within 5px of the anchor (four
results in all from the initial state).  On commit `stablePaneX` equals
the anchor — the *first* value of the agreeing run, not the last — and
in fixed mode the zone is saved and calibration cleared (LOCKED).  A
single result at distance ≥ 5px from the anchor resets the counter
to 0. -/
theorem c2_stability_commit_amended (isFixed : Bool) (a b c d : Int)
    (ha : 4 ≤ a) (hb : |b - a| < 5) (hc : |c - a| < 5) (hd : |d - a| < 5) :
    ((runDetection isFixed
        [⟨0, some a, none⟩, ⟨1, some b, none⟩, ⟨2, some c, none⟩,
         ⟨3, some d, none⟩] defaultDetState).1.stablePaneX = a ∧
     (runDetection isFixed
        [⟨0, some a, none⟩, ⟨1, some b, none⟩, ⟨2, some c, none⟩,
         ⟨3, some d, none⟩] defaultDetState).1.stabilityCount = 3 ∧
     0 < (runDetection isFixed
        [⟨0, some a, none⟩, ⟨1, some b, none⟩, ⟨2, some c, none⟩,
         ⟨3, some d, none⟩] defaultDetState).1.stablePaneX ∧
     (isFixed = true →
        (runDetection isFixed
          [⟨0, some a, none⟩, ⟨1, some b, none⟩, ⟨2, some c, none⟩,
           ⟨3, some d, none⟩] defaultDetState).1.fixedChatZone = some a ∧
        (runDetection isFixed
          [⟨0, some a, none⟩, ⟨1, some b, none⟩, ⟨2, some c, none⟩,
           ⟨3, some d, none⟩] defaultDetState).1.calibrationMode = false)) ∧
    (∀ (s : DetState) (now obs : Int), s.viewMode = .chat →
        s.stablePaneX = -1 → ¬(|obs - s.lastPaneX| < 5) →
        (performPaneDetection isFixed now (some obs) none s).1.stabilityCount
          = 0) := by
  constructor
  · simp only [runDetection_cons, runDetection_nil]
    have hmis1 : ¬(|a - defaultDetState.lastPaneX| < 5) := by
      show ¬(|a - (-1 : Int)| < 5)
      rw [abs_lt]
      omega
    have P1 := chat_step_mismatch_proj isFixed 0 a defaultDetState rfl rfl hmis1
    have hv1 : (performPaneDetection isFixed 0 (some a) none
        defaultDetState).1.viewMode = ViewMode.chat := P1.2.1.trans rfl
    have hs1 : (performPaneDetection isFixed 0 (some a) none
        defaultDetState).1.stablePaneX = -1 := P1.2.2.1.trans rfl
    have hl1 := P1.2.2.2.1
    have hc1 := P1.2.2.2.2
    set A1 := (performPaneDetection isFixed 0 (some a) none
        defaultDetState).1 with hA1
    have P2 := chat_step_progress_proj isFixed 1 b A1 hv1 hs1
      (by rw [hl1]; exact hb) (by rw [hc1]; omega)
    have hv2 : (performPaneDetection isFixed 1 (some b) none A1).1.viewMode
      = ViewMode.chat := P2.2.1.trans hv1
    have hs2 : (performPaneDetection isFixed 1 (some b) none A1).1.stablePaneX
      = -1 := P2.2.2.1.trans hs1
    have hl2 : (performPaneDetection isFixed 1 (some b) none A1).1.lastPaneX
      = a := P2.2.2.2.1.trans hl1
    have hc2 : (performPaneDetection isFixed 1 (some b) none A1).1.stabilityCount
      = 1 := by rw [P2.2.2.2.2, hc1]; norm_num
    set A2 := (performPaneDetection isFixed 1 (some b) none A1).1 with hA2
    have P3 := chat_step_progress_proj isFixed 2 c A2 hv2 hs2
      (by rw [hl2]; exact hc) (by rw [hc2]; omega)
    have hv3 : (performPaneDetection isFixed 2 (some c) none A2).1.viewMode
      = ViewMode.chat := P3.2.1.trans hv2
    have hs3 : (performPaneDetection isFixed 2 (some c) none A2).1.stablePaneX
      = -1 := P3.2.2.1.trans hs2
    have hl3 : (performPaneDetection isFixed 2 (some c) none A2).1.lastPaneX
      = a := P3.2.2.2.1.trans hl2
    have hc3 : (performPaneDetection isFixed 2 (some c) none A2).1.stabilityCount
      = 2 := by rw [P3.2.2.2.2, hc2]; norm_num
    set A3 := (performPaneDetection isFixed 2 (some c) none A2).1 with hA3
    have P4 := chat_step_commit_proj isFixed 3 d A3 hv3 hs3
      (by rw [hl3]; exact hd) (by rw [hc3])
    refine ⟨?_, ?_, ?_, ?_⟩
    · rw [P4.2.1, hl3]
    · rw [P4.2.2.1, hc3]; norm_num
    · rw [P4.2.1, hl3]; omega
    · intro hf
      exact ⟨(P4.2.2.2 hf).1.trans (by rw [hl3]), (P4.2.2.2 hf).2⟩
  · intro s now obs hvm hstable hmis
    exact (chat_step_mismatch_proj isFixed now obs s hvm hstable hmis).2.2.2.2

/-- Witness for `c2_stability_commit_amended`: after a fourth agreeing
result (620, 622, 619, 621) the committed `stablePaneX` is the anchor
620. -/
theorem c2_stability_commit_witness :
    (runDetection false [⟨0, some 620, none⟩, ⟨1, some 622, none⟩,
      ⟨2, some 619, none⟩, ⟨3, some 621, none⟩] defaultDetState).1.stablePaneX
      = 620 :=
  (c2_stability_commit_amended false 620 622 619 621 (by decide)
    (by decide) (by decide) (by decide)).1.1

/-- A detection run in a fixed-mode LOCKED state is a no-op apart from
the frame counter, and in particular never invokes the pane locator. -/
theorem locked_step (now : Int) (cr : Option Int) (tr : Option PaneBounds)
    (s : DetState) (h : LockedChat s ∨ LockedTerminal s) :
    performPaneDetection true now cr tr s =
      ({ s with frameCount := s.frameCount + 1 }, false) := by
  have hcal : s.calibrationMode = false := by
    rcases h with ⟨-, h2, -⟩ | ⟨-, h2, -⟩ <;> exact h2
  unfold performPaneDetection
  rw [detectPreamble_still now s hcal]
  rcases h with ⟨h1, -, h3⟩ | ⟨h1, -, h3⟩
  · simp [h1, hcal, h3]
  · simp [h1, hcal, h3]

/-- **C5.** Once a fixed-mode client is LOCKED (calibration over, stable
zone committed for its current chat/terminal view), any sequence of
capture ticks invokes the pane locator zero times and the client remains
LOCKED; after a `calibration:reset` (or `calibration:resetFixed`)
handler re-arms calibration, the very next detection run invokes the
locator again. -/
theorem c5_locked_skips_locator (s : DetState)
    (h : LockedChat s ∨ LockedTerminal s) (inputs : List DetInput) :
    (runDetection true inputs s).2 = 0 ∧
    (LockedChat (runDetection true inputs s).1 ∨
      LockedTerminal (runDetection true inputs s).1) ∧
    (∀ i : DetInput,
      (performPaneDetection true i.now i.chatResult i.termResult
        (calibrationReset s)).2 = true) := by
  have main : ∀ (l : List DetInput) (s0 : DetState),
      (LockedChat s0 ∨ LockedTerminal s0) →
      (runDetection true l s0).2 = 0 ∧
      (LockedChat (runDetection true l s0).1 ∨
        LockedTerminal (runDetection true l s0).1) := by
    intro l
    induction l with
    | nil =>
        intro s0 hs
        exact ⟨rfl, hs⟩
    | cons i is ih =>
        intro s0 hs
        have hstep := locked_step i.now i.chatResult i.termResult s0 hs
        have hs' : LockedChat { s0 with frameCount := s0.frameCount + 1 } ∨
            LockedTerminal { s0 with frameCount := s0.frameCount + 1 } := by
          rcases hs with ⟨h1, h2, h3⟩ | ⟨h1, h2, h3⟩
          · exact Or.inl ⟨h1, h2, h3⟩
          · exact Or.inr ⟨h1, h2, h3⟩
        have hih := ih { s0 with frameCount := s0.frameCount + 1 } hs'
        constructor
        · rw [runDetection_cons, hstep]
          simpa using hih.1
        · rw [runDetection_cons]
          dsimp only
          rw [hstep]
          exact hih.2
  have hz : ¬(CALIBRATION_DURATION ≤ (0 : Int)) := by
    rw [CALIBRATION_DURATION]
    omega
  refine ⟨(main inputs s h).1, (main inputs s h).2, ?_⟩
  intro i
  rcases h with ⟨h1, -, -⟩ | ⟨h1, -, -⟩
  · cases hcr : i.chatResult <;>
      simp [performPaneDetection, detectPreamble, calibrationReset, hz, h1, hcr]
  · cases htr : i.termResult <;>
      simp [performPaneDetection, detectPreamble, calibrationReset, hz, h1, htr]

/-- Witness for `c5_locked_skips_locator` at a concrete locked client
and a two-tick input sequence. -/
theorem c5_locked_skips_locator_witness :
    (runDetection true [⟨100, some 500, none⟩, ⟨200, none, none⟩]
      { defaultDetState with calibrationMode := false,
                             stablePaneX := 600,
                             lastPaneX := 600,
                             stabilityCount := 3 }).2 = 0 :=
  (c5_locked_skips_locator
    { defaultDetState with calibrationMode := false,
                           stablePaneX := 600,
                           lastPaneX := 600,
                           stabilityCount := 3 }
    (Or.inl ⟨rfl, rfl, by decide⟩)
    [⟨100, some 500, none⟩, ⟨200, none, none⟩]).1

/-- One worker event that does not target `id` preserves the invariant
and keeps `id` pending. -/
theorem applyWorkerEvent_preserves (e : WorkerEvent) (s : WorkerState)
    (id : Nat) (hinv : WorkerInv s) (hid : id ∈ s.pending)
    (hne : ¬ touches id e) :
    WorkerInv (applyWorkerEvent e s) ∧ id ∈ (applyWorkerEvent e s).pending := by
  obtain ⟨hnd, hle⟩ := hinv
  cases e with
  | newCall =>
      have hnotmem : s.callId + 1 ∉ s.pending := by
        intro hmem
        have := hle _ hmem
        omega
      refine ⟨⟨?_, ?_⟩, ?_⟩
      · show (s.pending ++ [s.callId + 1]).Nodup
        rw [List.nodup_append]
        exact ⟨hnd, List.nodup_singleton _,
          fun a ha hb => by simp at hb; subst hb; exact hnotmem ha⟩
      · intro i hi
        show i ≤ s.callId + 1
        rcases List.mem_append.mp hi with hi | hi
        · exact le_trans (hle i hi) (by omega)
        · simp at hi
          omega
      · show id ∈ s.pending ++ [s.callId + 1]
        exact List.mem_append.mpr (Or.inl hid)
  | response j =>
      have hj : id ≠ j := by
        intro hc
        exact hne (by simp [touches, hc])
      show WorkerInv (handleResponse s j).1 ∧ id ∈ (handleResponse s j).1.pending
      unfold handleResponse
      split
      · refine ⟨⟨hnd.erase _, ?_⟩, ?_⟩
        · intro i hi
          exact hle i (List.mem_of_mem_erase hi)
        · exact (List.mem_erase_of_ne hj).mpr hid
      · exact ⟨⟨hnd, hle⟩, hid⟩
  | timeout j =>
      have hj : id ≠ j := by
        intro hc
        exact hne (by simp [touches, hc])
      show WorkerInv (fireTimeout s j).1 ∧ id ∈ (fireTimeout s j).1.pending
      unfold fireTimeout
      split
      · refine ⟨⟨hnd.erase _, ?_⟩, ?_⟩
        · intro i hi
          exact hle i (List.mem_of_mem_erase hi)
        · exact (List.mem_erase_of_ne hj).mpr hid
      · exact ⟨⟨hnd, hle⟩, hid⟩

/-- A sequence of worker events none of which targets `id` preserves the
invariant and keeps `id` pending. -/
theorem runWorkerEvents_preserves (evs : List WorkerEvent) (s : WorkerState)
    (id : Nat) (hinv : WorkerInv s) (hid : id ∈ s.pending)
    (hno : ∀ e ∈ evs, ¬ touches id e) :
    WorkerInv (runWorkerEvents evs s) ∧
    id ∈ (runWorkerEvents evs s).pending := by
  induction evs generalizing s with
  | nil => exact ⟨hinv, hid⟩
  | cons e es ih =>
      have h1 := applyWorkerEvent_preserves e s id hinv hid
        (hno e (List.mem_cons_self e es))
      exact ih (applyWorkerEvent e s) h1.1 h1.2
        (fun e' he' => hno e' (List.mem_cons_of_mem e he'))

/-- **C8.** For a pending geometry call whose correlation id never
receives a matching response line — whatever other calls are issued,
answered or timed out meanwhile — its own timeout resolves the promise
with the null result and evicts the entry: afterwards the pending-call
map no longer contains the id. -/
theorem c8_timeout_resolves_null_no_leak (s : WorkerState) (id : Nat)
    (hinv : WorkerInv s) (hid : id ∈ s.pending)
    (evs : List WorkerEvent) (hno : ∀ e ∈ evs, ¬ touches id e) :
    (fireTimeout (runWorkerEvents evs s) id).2 = true ∧
    id ∉ (fireTimeout (runWorkerEvents evs s) id).1.pending := by
  obtain ⟨⟨hnd, -⟩, hid'⟩ := runWorkerEvents_preserves evs s id hinv hid hno
  constructor
  · simp [fireTimeout, hid']
  · simp [fireTimeout, hid']
    exact hnd.not_mem_erase

/-- Witness for `c8_timeout_resolves_null_no_leak`: call 1 is issued,
then an unrelated call and an unrelated response happen; call 1's
timeout resolves null and leaves the map without it. -/
theorem c8_timeout_witness :
    (fireTimeout (runWorkerEvents [.newCall, .response 2]
      (issueCall ⟨0, []⟩).1) 1).2 = true ∧
    (1 : Nat) ∉ (fireTimeout (runWorkerEvents [.newCall, .response 2]
      (issueCall ⟨0, []⟩).1) 1).1.pending :=
  c8_timeout_resolves_null_no_leak (issueCall ⟨0, []⟩).1 1
    (by constructor <;> decide) (by decide)
    [.newCall, .response 2] (by decide)

/-- In a no-contrast buffer no scan position of `findVerticalEdges`
yields a candidate. -/
theorem vEdgeCandidate_none (img : Img) (o : EdgeOptions)
    (hflat : ∀ x y x' y', colorDiff (img.pix x y) (img.pix x' y')
        ≤ o.edgeThreshold)
    (hmin : 0 < o.minEdgeScore) (x : Int) :
    vEdgeCandidate img o x = none := by
  have hempty : (stepPositions o.marginY (img.height - o.marginY)
      o.sampleStep).filter (fun y =>
        colorDiff (img.pix (max 0 (x - 3)) y)
                  (img.pix (min (img.width - 1) (x + 3)) y)
          > o.edgeThreshold) = [] := by
    rw [List.filter_eq_nil_iff]
    intro y hy
    simp only [decide_eq_true_eq]
    exact not_lt.mpr (hflat _ _ _ _)
  simp [vEdgeCandidate, hempty, not_le.mpr hmin]

/-- In a no-contrast buffer no scan position of `findHorizontalEdges`
yields a candidate. -/
theorem hEdgeCandidate_none (img : Img) (o : EdgeOptions)
    (hflat : ∀ x y x' y', colorDiff (img.pix x y) (img.pix x' y')
        ≤ o.edgeThreshold)
    (hmin : 0 < o.minEdgeScore) (y : Int) :
    hEdgeCandidate img o y = none := by
  have hempty : (stepPositions o.marginX (img.width - o.marginX)
      o.sampleStep).filter (fun x =>
        colorDiff (img.pix x (max 0 (y - 3)))
                  (img.pix x (min (img.height - 1) (y + 3)))
          > o.edgeThreshold) = [] := by
    rw [List.filter_eq_nil_iff]
    intro x hx
    simp only [decide_eq_true_eq]
    exact not_lt.mpr (hflat _ _ _ _)
  simp [hEdgeCandidate, hempty, not_le.mpr hmin]

/-- **C9.** On a buffer in which no two sampled pixels differ by more
than the contrast threshold, both edge finders (with any positive
minimum score, as at every call site) return the empty candidate set. -/
theorem c9_no_contrast_empty (img : Img) (o : EdgeOptions)
    (hflat : ∀ x y x' y', colorDiff (img.pix x y) (img.pix x' y')
        ≤ o.edgeThreshold)
    (hmin : 0 < o.minEdgeScore) :
    findVerticalEdges img o = [] ∧ findHorizontalEdges img o = [] := by
  constructor
  · simp only [findVerticalEdges]
    rw [List.filterMap_eq_nil_iff.mpr
      (fun x _ => vEdgeCandidate_none img o hflat hmin x)]
    rfl
  · simp only [findHorizontalEdges]
    rw [List.filterMap_eq_nil_iff.mpr
      (fun y _ => hEdgeCandidate_none img o hflat hmin y)]
    rfl

/-- Witness for `c9_no_contrast_empty`: a uniform gray 100×100 buffer
with the default options of the vertical scan. -/
theorem c9_no_contrast_witness :
    findVerticalEdges (Img.mk 100 100 (fun _ _ => RGBA.mk 100 100 100 255))
      (EdgeOptions.mk (3/5) 25 5 30 30 false) = [] ∧
    findHorizontalEdges (Img.mk 100 100 (fun _ _ => RGBA.mk 100 100 100 255))
      (EdgeOptions.mk (3/5) 25 5 30 30 false) = [] :=
  c9_no_contrast_empty
    (Img.mk 100 100 (fun _ _ => RGBA.mk 100 100 100 255))
    (EdgeOptions.mk (3/5) 25 5 30 30 false)
    (fun _ _ _ _ => by
      show colorDiff (RGBA.mk 100 100 100 255) (RGBA.mk 100 100 100 255) ≤ 25
      decide)
    (by norm_num)
